import Mathlib

/-!
Formal model of the Tradovate risk-management gateway core.

The definitions below are a shallow embedding of the service's source:

* `getAutoLiqSettings`, `setAutoLiqSettings` — `src/lib/risk.ts`: the read
  merge of the owner-scoped (`userAccountAutoLiq/deps`) and permissioned
  (`permissionedAccountAutoLiq/deps`) downstream lookups, and the
  interpretation of the `updateuserautoliq` response.
* `getCachedRisk`, `setCachedRisk`, `invalidateCachedRisk` — the process
  cache (`NodeCache`, 1 hour TTL) from `src/microservice/cache.ts`.
* `getRiskHandler`, `postRiskHandler` — the GET/POST
  `/risk-management/risk/{accountId}` route handlers of
  `src/microservice/routes.ts`, with the downstream call results supplied
  as explicit parameters and the body of any downstream update call
  reported in the result so that "no downstream call was made" is
  expressible.
* `getConnectionTokenFirebase`, `getConnectionTokenSupabase`,
  `mapAuthError`, `resolveConnFirebase`, `resolveConnSupabase` — the
  connection-credential resolution chain of `src/microservice/firebase.ts`,
  the Supabase variant, and the auth plugin error mapping.

JavaScript dynamic behaviour is made explicit: absent object fields are
`Option.none`, truthiness of numbers/strings is modelled by `jsTruthyNum` /
`jsTruthyStr`, object spread precedence by `jsOverride`, and
`String.prototype.includes` by `strContains`.
-/

deriving instance DecidableEq for Except

/-- `charsStartWith s p` — `p` occurs at the very start of `s`. -/
def charsStartWith : List Char → List Char → Bool
  | _, [] => true
  | [], _ :: _ => false
  | c :: s, d :: p => (c == d) && charsStartWith s p

/-- `charsContain s p` — `p` occurs somewhere inside `s`. -/
def charsContain : List Char → List Char → Bool
  | _, [] => true
  | [], _ :: _ => false
  | c :: s, d :: p => charsStartWith (c :: s) (d :: p) || charsContain s (d :: p)

/-- Model of JavaScript `String.prototype.includes`. -/
def strContains (s pat : String) : Bool :=
  charsContain s.data pat.data

theorem charsContain_nil (s : List Char) : charsContain s [] = true := by
  cases s <;> rfl

theorem charsStartWith_nil (s : List Char) : charsStartWith s [] = true := by
  cases s <;> rfl

theorem charsStartWith_refl (l : List Char) : charsStartWith l l = true := by
  induction l with
  | nil => rfl
  | cons c s ih => simp [charsStartWith, ih]

theorem charsStartWith_append (p s : List Char) : charsStartWith (p ++ s) p = true := by
  induction p generalizing s with
  | nil => exact charsStartWith_nil s
  | cons d q ih => simp [charsStartWith, ih]

theorem charsStartWith_extend (s y p : List Char) (h : charsStartWith s p = true) :
    charsStartWith (s ++ y) p = true := by
  induction p generalizing s with
  | nil => exact charsStartWith_nil _
  | cons d q ih =>
    cases s with
    | nil => simp [charsStartWith] at h
    | cons c s2 =>
      simp only [charsStartWith, Bool.and_eq_true] at h
      simp only [List.cons_append, charsStartWith, Bool.and_eq_true]
      exact ⟨h.1, ih s2 h.2⟩

theorem charsContain_of_startsWith (s p : List Char) (h : charsStartWith s p = true) :
    charsContain s p = true := by
  cases p with
  | nil => exact charsContain_nil s
  | cons d q =>
    cases s with
    | nil => simp [charsStartWith] at h
    | cons c s2 => simp [charsContain, h]

theorem charsContain_extend (x y p : List Char) (h : charsContain x p = true) :
    charsContain (x ++ y) p = true := by
  induction x with
  | nil =>
    cases p with
    | nil => exact charsContain_nil y
    | cons d q => simp [charsContain] at h
  | cons c x2 ih =>
    cases p with
    | nil => exact charsContain_nil _
    | cons d q =>
      simp only [charsContain, Bool.or_eq_true] at h
      simp only [List.cons_append, charsContain, Bool.or_eq_true]
      cases h with
      | inl h1 =>
        exact Or.inl (by simpa using charsStartWith_extend _ y _ h1)
      | inr h2 => exact Or.inr (ih h2)

theorem charsContain_append_self (x p : List Char) : charsContain (x ++ p) p = true := by
  cases p with
  | nil => exact charsContain_nil _
  | cons d q =>
    induction x with
    | nil => exact charsContain_of_startsWith _ _ (charsStartWith_refl _)
    | cons c x2 ih =>
      simp only [List.cons_append, charsContain, Bool.or_eq_true]
      exact Or.inr ih

theorem strContains_of_data (s p : String) (r : List Char) (h : s.data = p.data ++ r) :
    strContains s p = true := by
  unfold strContains
  rw [h]
  exact charsContain_of_startsWith _ _ (charsStartWith_append _ _)

theorem strContains_append_self (a t : String) : strContains (a ++ t) t = true := by
  unfold strContains
  rw [String.data_append]
  exact charsContain_append_self _ _

theorem strContains_append_left (s t p : String) (h : strContains s p = true) :
    strContains (s ++ t) p = true := by
  unfold strContains at h ⊢
  rw [String.data_append]
  exact charsContain_extend _ _ _ h

/-- JavaScript truthiness of an optional number (`undefined`, `0` are falsy). -/
def jsTruthyNum : Option Int → Bool
  | none => false
  | some n => n != 0

/-- JavaScript truthiness of an optional string (`undefined`, `""` are falsy). -/
def jsTruthyStr : Option String → Bool
  | none => false
  | some s => s != ""

/-- Key-presence precedence of the object spread `\x7b ...perm, ...user \x7d`:
the first (user/owner) value wins whenever it is present. -/
def jsOverride (u p : Option α) : Option α :=
  match u with
  | some v => some v
  | none => p

theorem jsOverride_none_right (a : Option α) : jsOverride a none = a := by
  cases a <;> rfl

theorem jsOverride_none_left (a : Option α) : jsOverride none a = a := rfl

theorem jsOverride_map (g : α → β) (a b : Option α) :
    (jsOverride a b).map g = jsOverride (a.map g) (b.map g) := by
  cases a <;> rfl

/-- `trailingMaxDrawdownMode ∈ \x7bEOD, RealTime\x7d`. -/
inductive TMDMode where
  | EOD
  | RealTime
deriving DecidableEq

/-- The `UserAccountAutoLiq` entity of `src/lib/risk.ts`. All fields the
downstream API may omit are `Option`; `id` is also optional here because the
route code manipulates bare `\x7b\x7d` objects of this shape. -/
@[ext]
structure UserAccountAutoLiq where
  id : Option Int := none
  changesLocked : Option Bool := none
  marginPercentageAlert : Option Int := none
  dailyLossPercentageAlert : Option Int := none
  dailyLossAlert : Option Int := none
  marginPercentageLiqOnly : Option Int := none
  dailyLossPercentageLiqOnly : Option Int := none
  dailyLossLiqOnly : Option Int := none
  marginPercentageAutoLiq : Option Int := none
  dailyLossPercentageAutoLiq : Option Int := none
  dailyLossAutoLiq : Option Int := none
  weeklyLossAutoLiq : Option Int := none
  flattenTimestamp : Option String := none
  trailingMaxDrawdown : Option Int := none
  trailingMaxDrawdownLimit : Option Int := none
  trailingMaxDrawdownMode : Option TMDMode := none
  dailyProfitAutoLiq : Option Int := none
  weeklyProfitAutoLiq : Option Int := none
  doNotUnlock : Option Bool := none
deriving DecidableEq

/-- The empty object `\x7b\x7d` used as `permAutoLiq[0] ?? \x7b\x7d`. -/
def emptyAutoLiq : UserAccountAutoLiq := {}

/-- The spread merge `\x7b ...perm, ...user \x7d` of `getAutoLiqSettings`:
every field present on the user (owner) record wins; otherwise the
permissioned record's field is used. -/
def mergeAutoLiq (perm user : UserAccountAutoLiq) : UserAccountAutoLiq where
  id := jsOverride user.id perm.id
  changesLocked := jsOverride user.changesLocked perm.changesLocked
  marginPercentageAlert := jsOverride user.marginPercentageAlert perm.marginPercentageAlert
  dailyLossPercentageAlert := jsOverride user.dailyLossPercentageAlert perm.dailyLossPercentageAlert
  dailyLossAlert := jsOverride user.dailyLossAlert perm.dailyLossAlert
  marginPercentageLiqOnly := jsOverride user.marginPercentageLiqOnly perm.marginPercentageLiqOnly
  dailyLossPercentageLiqOnly := jsOverride user.dailyLossPercentageLiqOnly perm.dailyLossPercentageLiqOnly
  dailyLossLiqOnly := jsOverride user.dailyLossLiqOnly perm.dailyLossLiqOnly
  marginPercentageAutoLiq := jsOverride user.marginPercentageAutoLiq perm.marginPercentageAutoLiq
  dailyLossPercentageAutoLiq := jsOverride user.dailyLossPercentageAutoLiq perm.dailyLossPercentageAutoLiq
  dailyLossAutoLiq := jsOverride user.dailyLossAutoLiq perm.dailyLossAutoLiq
  weeklyLossAutoLiq := jsOverride user.weeklyLossAutoLiq perm.weeklyLossAutoLiq
  flattenTimestamp := jsOverride user.flattenTimestamp perm.flattenTimestamp
  trailingMaxDrawdown := jsOverride user.trailingMaxDrawdown perm.trailingMaxDrawdown
  trailingMaxDrawdownLimit := jsOverride user.trailingMaxDrawdownLimit perm.trailingMaxDrawdownLimit
  trailingMaxDrawdownMode := jsOverride user.trailingMaxDrawdownMode perm.trailingMaxDrawdownMode
  dailyProfitAutoLiq := jsOverride user.dailyProfitAutoLiq perm.dailyProfitAutoLiq
  weeklyProfitAutoLiq := jsOverride user.weeklyProfitAutoLiq perm.weeklyProfitAutoLiq
  doNotUnlock := jsOverride user.doNotUnlock perm.doNotUnlock

theorem mergeAutoLiq_empty_perm (u : UserAccountAutoLiq) :
    mergeAutoLiq emptyAutoLiq u = u := by
  cases u
  simp [mergeAutoLiq, emptyAutoLiq, jsOverride_none_right]

theorem mergeAutoLiq_empty_user (p : UserAccountAutoLiq) :
    mergeAutoLiq p emptyAutoLiq = p := by
  cases p
  simp [mergeAutoLiq, emptyAutoLiq, jsOverride_none_left]

/-- Names of the fields of `UserAccountAutoLiq`, for field-indexed statements
about the merge. -/
inductive ALField where
  | id | changesLocked | marginPercentageAlert | dailyLossPercentageAlert
  | dailyLossAlert | marginPercentageLiqOnly | dailyLossPercentageLiqOnly
  | dailyLossLiqOnly | marginPercentageAutoLiq | dailyLossPercentageAutoLiq
  | dailyLossAutoLiq | weeklyLossAutoLiq | flattenTimestamp
  | trailingMaxDrawdown | trailingMaxDrawdownLimit | trailingMaxDrawdownMode
  | dailyProfitAutoLiq | weeklyProfitAutoLiq | doNotUnlock
deriving DecidableEq

/-- A value held by one field of a `UserAccountAutoLiq` record. -/
inductive ALFieldVal where
  | num (n : Int)
  | flag (b : Bool)
  | str (s : String)
  | mode (m : TMDMode)
deriving DecidableEq

/-- Field-indexed access to a `UserAccountAutoLiq` record; `none` means the
field is absent from the JavaScript object. -/
def getField (r : UserAccountAutoLiq) : ALField → Option ALFieldVal
  | .id => r.id.map .num
  | .changesLocked => r.changesLocked.map .flag
  | .marginPercentageAlert => r.marginPercentageAlert.map .num
  | .dailyLossPercentageAlert => r.dailyLossPercentageAlert.map .num
  | .dailyLossAlert => r.dailyLossAlert.map .num
  | .marginPercentageLiqOnly => r.marginPercentageLiqOnly.map .num
  | .dailyLossPercentageLiqOnly => r.dailyLossPercentageLiqOnly.map .num
  | .dailyLossLiqOnly => r.dailyLossLiqOnly.map .num
  | .marginPercentageAutoLiq => r.marginPercentageAutoLiq.map .num
  | .dailyLossPercentageAutoLiq => r.dailyLossPercentageAutoLiq.map .num
  | .dailyLossAutoLiq => r.dailyLossAutoLiq.map .num
  | .weeklyLossAutoLiq => r.weeklyLossAutoLiq.map .num
  | .flattenTimestamp => r.flattenTimestamp.map .str
  | .trailingMaxDrawdown => r.trailingMaxDrawdown.map .num
  | .trailingMaxDrawdownLimit => r.trailingMaxDrawdownLimit.map .num
  | .trailingMaxDrawdownMode => r.trailingMaxDrawdownMode.map .mode
  | .dailyProfitAutoLiq => r.dailyProfitAutoLiq.map .num
  | .weeklyProfitAutoLiq => r.weeklyProfitAutoLiq.map .num
  | .doNotUnlock => r.doNotUnlock.map .flag

theorem getField_merge (p u : UserAccountAutoLiq) (f : ALField) :
    getField (mergeAutoLiq p u) f = jsOverride (getField u f) (getField p f) := by
  cases f <;> simp [getField, mergeAutoLiq, jsOverride_map]

/-- The swallow pattern of `getAutoLiqSettings`: a thrown error whose message
includes `"401"` or `"Access is denied"` is swallowed. -/
def isUnauthorizedMsg (msg : String) : Bool :=
  strContains msg "401" || strContains msg "Access is denied"

/-- The tail of `getAutoLiqSettings`: take the first record of each list
(`?? \x7b\x7d`), spread-merge them, and return `[]` when neither side has a
truthy `id`. -/
def mergeAndFinish (userAutoLiq permAutoLiq : List UserAccountAutoLiq) :
    List UserAccountAutoLiq :=
  let perm := permAutoLiq.headD emptyAutoLiq
  let user := userAutoLiq.headD emptyAutoLiq
  let merged := mergeAutoLiq perm user
  if !(jsTruthyNum perm.id) && !(jsTruthyNum user.id) then [] else [merged]

/-- One `try/catch` block of `getAutoLiqSettings`: a failed downstream call
is replaced by `[]` when its message matches the unauthorized pattern, and
rethrown otherwise. -/
def swallowUnauthorized (res : Except String (List UserAccountAutoLiq)) :
    Except String (List UserAccountAutoLiq) :=
  match res with
  | .ok l => .ok l
  | .error msg => if isUnauthorizedMsg msg then .ok [] else .error msg

/-- `getAutoLiqSettings` of `src/lib/risk.ts`, with the results of the two
downstream lookups (owner endpoint `userAccountAutoLiq/deps` first, then
permissioned endpoint `permissionedAccountAutoLiq/deps`) supplied as
parameters. A non-swallowed owner failure propagates before the permissioned
result is consulted. -/
def getAutoLiqSettings (ownerRes permRes : Except String (List UserAccountAutoLiq)) :
    Except String (List UserAccountAutoLiq) :=
  match swallowUnauthorized ownerRes with
  | .error msg => .error msg
  | .ok userAutoLiq =>
    match swallowUnauthorized permRes with
    | .error msg => .error msg
    | .ok permAutoLiq => .ok (mergeAndFinish userAutoLiq permAutoLiq)

/-- Response shape of the downstream `updateuserautoliq` endpoint. -/
structure UpdateUserAutoLiqResponse where
  errorText : Option String := none
  userAccountAutoLiq : Option UserAccountAutoLiq := none
  permissionedAccountAutoLiq : Option UserAccountAutoLiq := none
deriving DecidableEq

/-- Error message used when `result.errorText` is truthy. -/
def setAutoLiqFailMsg (accountId : Int) (t : String) : String :=
  "Failed to set auto-liq for account " ++ toString accountId ++ ": " ++ t

/-- Error message used when neither entity shape is present. -/
def noEntityMsg (accountId : Int) : String :=
  "No auto-liq entity returned for account " ++ toString accountId

/-- `setAutoLiqSettings` of `src/lib/risk.ts`, with the downstream POST
result supplied as a parameter: a truthy `errorText` fails the write; else
the entity is taken from `userAccountAutoLiq` (owner shape) or, when that is
absent, `permissionedAccountAutoLiq`; if both are absent the write fails. -/
def setAutoLiqSettings (accountId : Int)
    (postRes : Except String UpdateUserAutoLiqResponse) :
    Except String UserAccountAutoLiq :=
  match postRes with
  | .error e => .error e
  | .ok result =>
    if jsTruthyStr result.errorText then
      .error (setAutoLiqFailMsg accountId (result.errorText.getD ""))
    else
      match result.userAccountAutoLiq with
      | some a => .ok a
      | none =>
        match result.permissionedAccountAutoLiq with
        | some a => .ok a
        | none => .error (noEntityMsg accountId)

/-- One entry of the `NodeCache` store: the cached record and its absolute
expiry time in seconds (`stdTTL: 3600`). -/
structure CacheEntry where
  value : UserAccountAutoLiq
  expiresAt : Nat
deriving DecidableEq

/-- The process-wide risk cache, keyed by the `risk:$\x7baccountId\x7d` string. -/
abbrev Cache := List (String × CacheEntry)

/-- `riskKey` of `src/microservice/cache.ts`. -/
def riskKey (accountId : Int) : String :=
  "risk:" ++ toString accountId

/-- First-match lookup in the cache store. -/
def cacheLookup : Cache → String → Option CacheEntry
  | [], _ => none
  | (k, e) :: rest, key => if k = key then some e else cacheLookup rest key

/-- `getCachedRisk`: returns the cached record unless the entry is absent or
has reached its expiry time. -/
def getCachedRisk (cache : Cache) (now : Nat) (accountId : Int) :
    Option UserAccountAutoLiq :=
  match cacheLookup cache (riskKey accountId) with
  | some e => if now < e.expiresAt then some e.value else none
  | none => none

/-- `setCachedRisk`: store the record under the account's key with a one hour
TTL, replacing any previous entry for the key. -/
def setCachedRisk (cache : Cache) (now : Nat) (accountId : Int)
    (settings : UserAccountAutoLiq) : Cache :=
  (riskKey accountId, ⟨settings, now + 3600⟩) ::
    cache.filter (fun p => p.1 ≠ riskKey accountId)

/-- `invalidateCachedRisk`: delete the entry for the account's key. -/
def invalidateCachedRisk (cache : Cache) (accountId : Int) : Cache :=
  cache.filter (fun p => p.1 ≠ riskKey accountId)

theorem getCachedRisk_setCachedRisk (cache : Cache) (now : Nat) (accountId : Int)
    (v : UserAccountAutoLiq) :
    getCachedRisk (setCachedRisk cache now accountId v) now accountId = some v := by
  simp [getCachedRisk, setCachedRisk, cacheLookup]

/-- A JSON value as it appears in the POST payload; `vnull` is JavaScript
`null` (a key that is absent from the object is simply missing from the
association list). -/
inductive JsVal where
  | vnull
  | vnum (n : Int)
  | vbool (b : Bool)
  | vstr (s : String)
deriving DecidableEq

/-- Key lookup in a JavaScript object (`payload[field]`); `none` models
`undefined`. -/
def lookupField : List (String × JsVal) → String → Option JsVal
  | [], _ => none
  | (k, v) :: rest, f => if k = f then some v else lookupField rest f

/-- The fixed `allowedFields` list of the POST
`/risk-management/risk/\x7baccountId\x7d` handler in
`src/microservice/routes.ts`. -/
def riskAllowedFields : List String :=
  ["dailyLossAutoLiq", "dailyProfitAutoLiq", "weeklyLossAutoLiq",
   "weeklyProfitAutoLiq", "dailyLossAlert", "dailyLossPercentageAlert",
   "marginPercentageAlert", "dailyLossLiqOnly", "dailyLossPercentageLiqOnly",
   "marginPercentageLiqOnly", "dailyLossPercentageAutoLiq",
   "marginPercentageAutoLiq"]

/-- The handler's filtering loop over a list of field names: a field is kept
exactly when `payload[field] != null`, i.e. the key is present and its value
is not `null`. -/
def filterFieldsOver : List String → List (String × JsVal) → List (String × JsVal)
  | [], _ => []
  | f :: rest, payload =>
    match lookupField payload f with
    | some v =>
      if v = JsVal.vnull then filterFieldsOver rest payload
      else (f, v) :: filterFieldsOver rest payload
    | none => filterFieldsOver rest payload

/-- The `settings` object built by the POST handler from the payload. -/
def filterRiskFields (payload : List (String × JsVal)) : List (String × JsVal) :=
  filterFieldsOver riskAllowedFields payload

/-- The 400 message of the POST handler when no allow-listed field survives
the filter. -/
def noValidParamsMsg : String :=
  "No valid risk parameters provided. Include at least one of: dailyLossAutoLiq, dailyProfitAutoLiq, etc."

/-- Response of the GET `/risk-management/risk/\x7baccountId\x7d` handler. -/
inductive RiskGetResponse where
  | ok (autoLiq : Option UserAccountAutoLiq) (cached : Bool)
  | err (status : Nat) (error : String) (code : Option String)
deriving DecidableEq

/-- Response of the POST `/risk-management/risk/\x7baccountId\x7d` handler. -/
inductive RiskSetResponse where
  | ok (autoLiq : UserAccountAutoLiq)
  | err (status : Nat) (error : String) (code : Option String)
deriving DecidableEq

/-- The GET `/risk-management/risk/\x7baccountId\x7d` handler of
`src/microservice/routes.ts`. The two downstream lookup results are supplied
as parameters; the returned triple is (response, cache after the request,
whether the downstream API was contacted). -/
def getRiskHandler (cache : Cache) (now : Nat) (accountId : Int)
    (ownerRes permRes : Except String (List UserAccountAutoLiq)) :
    RiskGetResponse × Cache × Bool :=
  match getCachedRisk cache now accountId with
  | some cachedVal => (.ok (some cachedVal) true, cache, false)
  | none =>
    match getAutoLiqSettings ownerRes permRes with
    | .ok settings =>
      match settings.head? with
      | some a => (.ok (some a) false, setCachedRisk cache now accountId a, true)
      | none => (.ok none false, cache, true)
    | .error message =>
      if isUnauthorizedMsg message then
        (.err 401 "Tradovate token expired. Please reconnect." (some "TOKEN_EXPIRED"),
          cache, true)
      else (.err 500 message none, cache, true)

/-- The POST `/risk-management/risk/\x7baccountId\x7d` handler of
`src/microservice/routes.ts`. The downstream `updateuserautoliq` result is
supplied as a parameter; the returned triple is (response, cache after the
request, the body `(accountId, settings)` of the downstream update call, or
`none` when no downstream call was made). -/
def postRiskHandler (cache : Cache) (now : Nat) (accountId : Int)
    (payload : List (String × JsVal))
    (updateRes : Except String UpdateUserAutoLiqResponse) :
    RiskSetResponse × Cache × Option (Int × List (String × JsVal)) :=
  let settings := filterRiskFields payload
  if settings.length = 0 then
    (.err 400 noValidParamsMsg none, cache, none)
  else
    match setAutoLiqSettings accountId updateRes with
    | .ok result =>
      (.ok result,
        setCachedRisk (invalidateCachedRisk cache accountId) now accountId result,
        some (accountId, settings))
    | .error message =>
      if isUnauthorizedMsg message then
        (.err 401 "Tradovate token expired. Please reconnect." (some "TOKEN_EXPIRED"),
          cache, some (accountId, settings))
      else if strContains message "Unsupported parameters" then
        (.err 400 message (some "UNSUPPORTED_PARAMS"), cache, some (accountId, settings))
      else if strContains message "Should be account owner" then
        (.err 403 "Insufficient permissions. You are not the account owner."
          (some "NOT_OWNER"), cache, some (accountId, settings))
      else (.err 500 message none, cache, some (accountId, settings))

theorem getRiskHandler_of_hit (cache : Cache) (now : Nat) (accountId : Int)
    (v : UserAccountAutoLiq) (h : getCachedRisk cache now accountId = some v)
    (ownerRes permRes : Except String (List UserAccountAutoLiq)) :
    getRiskHandler cache now accountId ownerRes permRes =
      (.ok (some v) true, cache, false) := by
  simp [getRiskHandler, h]

/-- A connection-credential record as stored by the credential store
(`\x7b token, url, ... \x7d`); fields an untyped store may omit are `Option`. -/
structure ConnData where
  token : Option String := none
  url : Option String := none
deriving DecidableEq

/-- The not-found message shared by both `getConnectionToken` variants. -/
def connMissMsg (userId connectionRef : String) : String :=
  "No Tradovate token found for user " ++ userId ++ ", connection " ++ connectionRef

/-- The message of the Supabase variant for a present record whose token is
missing or empty. -/
def tokenEmptyMsg (userId connectionRef : String) : String :=
  "Token is empty for user " ++ userId ++ ", connection " ++ connectionRef

/-- `getConnectionToken` of `src/microservice/firebase.ts`: the RTDB snapshot
value is supplied as a parameter; a `null` snapshot or a falsy `data.token`
throws the not-found message. -/
def getConnectionTokenFirebase (userId connectionRef : String)
    (data : Option ConnData) : Except String ConnData :=
  match data with
  | none => .error (connMissMsg userId connectionRef)
  | some d =>
    if jsTruthyStr d.token then .ok d
    else .error (connMissMsg userId connectionRef)

/-- `getConnectionToken` of the Supabase variant in `server.ts`: a query
error yields the not-found message with the store's error appended; a
present row with a falsy token yields the token-empty message; otherwise the
token and the url (defaulted to the demo base) are returned. -/
def getConnectionTokenSupabase (userId connectionRef : String)
    (res : Except String ConnData) : Except String (String × String) :=
  match res with
  | .error e => .error (connMissMsg userId connectionRef ++ ": " ++ e)
  | .ok data =>
    if jsTruthyStr data.token then
      .ok (data.token.getD "", data.url.getD "https://demo.tradovateapi.com")
    else .error (tokenEmptyMsg userId connectionRef)

/-- The catch-block mapping of the auth plugin (and of the Express
middleware): Firebase-verification failures → 401 with a fixed message,
messages containing the not-found text → 404 passing the message through,
anything else → 401 passing the message through. -/
def mapAuthError (msg : String) : Nat × String :=
  if strContains msg "Firebase ID token has expired" || strContains msg "Decoding Firebase" then
    (401, "Invalid or expired auth token")
  else if strContains msg "No Tradovate token found" then (404, msg)
  else (401, msg)

/-- Outcome of the authentication stage: either an authorized client is
constructed from (base URL, delegated token), or the request is rejected
with an HTTP status and error message and no client exists. -/
inductive AuthOutcome where
  | authenticated (baseUrl token : String)
  | rejected (status : Nat) (error : String)
deriving DecidableEq

/-- Steps 4–5 of the auth plugin: on a successful lookup normalize the base
URL (append `/v1` when absent) and construct the client; on a failed lookup
apply the catch-block error mapping. -/
def authOutcomeOfLookup (lookup : Except String (String × String)) : AuthOutcome :=
  match lookup with
  | .error msg => .rejected (mapAuthError msg).1 (mapAuthError msg).2
  | .ok (token, url) =>
    .authenticated (if url.endsWith "/v1" then url else url ++ "/v1") token

/-- The Express middleware's resolution: Firebase-RTDB lookup then client
construction or error mapping. -/
def resolveConnFirebase (userId connectionRef : String)
    (data : Option ConnData) : AuthOutcome :=
  authOutcomeOfLookup
    ((getConnectionTokenFirebase userId connectionRef data).map
      (fun d => (d.token.getD "", d.url.getD "")))

/-- The Hapi auth plugin's resolution: Supabase lookup then client
construction or error mapping. -/
def resolveConnSupabase (userId connectionRef : String)
    (res : Except String ConnData) : AuthOutcome :=
  authOutcomeOfLookup (getConnectionTokenSupabase userId connectionRef res)

theorem connMissMsg_contains (uid ref : String) :
    strContains (connMissMsg uid ref) "No Tradovate token found" = true := by
  apply strContains_of_data _ _
    (" for user ".data ++ (uid.data ++ (", connection ".data ++ ref.data)))
  have e : "No Tradovate token found for user ".data =
      "No Tradovate token found".data ++ " for user ".data := by decide
  simp [connMissMsg, String.data_append, e]

theorem mapAuthError_notFound (msg : String)
    (h1 : strContains msg "Firebase ID token has expired" = false)
    (h2 : strContains msg "Decoding Firebase" = false)
    (h3 : strContains msg "No Tradovate token found" = true) :
    mapAuthError msg = (404, msg) := by
  simp [mapAuthError, h1, h2, h3]

theorem jsTruthyNum_none : jsTruthyNum none = false := rfl

theorem emptyAutoLiq_id : emptyAutoLiq.id = none := rfl

theorem mergeAndFinish_no_id (lu lp : List UserAccountAutoLiq)
    (hu : jsTruthyNum ((lu.headD emptyAutoLiq).id) = false)
    (hp : jsTruthyNum ((lp.headD emptyAutoLiq).id) = false) :
    mergeAndFinish lu lp = [] := by
  simp_all [mergeAndFinish]

theorem swallow_no_id (res : Except String (List UserAccountAutoLiq))
    (h : (∃ l, res = .ok l ∧ jsTruthyNum ((l.headD emptyAutoLiq).id) = false) ∨
         (∃ m, res = .error m ∧ isUnauthorizedMsg m = true)) :
    ∃ l, swallowUnauthorized res = .ok l ∧
      jsTruthyNum ((l.headD emptyAutoLiq).id) = false := by
  rcases h with ⟨l, rfl, hl⟩ | ⟨m, rfl, hm⟩
  · exact ⟨l, rfl, hl⟩
  · exact ⟨[], by simp [swallowUnauthorized, hm], rfl⟩

/-- C1: the merged result of the read overlays the permissioned record with
the owner record: a field present on the owner record keeps the owner value
in the merge, a field absent from the owner record takes the permissioned
record's value (so a field present in either record is present in the
merge, and on a conflict the owner wins), and when the downstream lookups
return a record on only one side the read returns exactly that record;
when both sides return an identifiable record the read returns exactly the
overlay of the two. -/
theorem merge_owner_precedence :
    (∀ (p u : UserAccountAutoLiq) (f : ALField) (v : ALFieldVal),
        getField u f = some v → getField (mergeAutoLiq p u) f = some v) ∧
    (∀ (p u : UserAccountAutoLiq) (f : ALField),
        getField u f = none → getField (mergeAutoLiq p u) f = getField p f) ∧
    (∀ (u : UserAccountAutoLiq), jsTruthyNum u.id = true →
        getAutoLiqSettings (.ok [u]) (.ok []) = .ok [u]) ∧
    (∀ (p : UserAccountAutoLiq), jsTruthyNum p.id = true →
        getAutoLiqSettings (.ok []) (.ok [p]) = .ok [p]) ∧
    (∀ (p u : UserAccountAutoLiq), jsTruthyNum u.id = true → jsTruthyNum p.id = true →
        getAutoLiqSettings (.ok [u]) (.ok [p]) = .ok [mergeAutoLiq p u]) := by
  refine ⟨?_, ?_, ?_, ?_, ?_⟩
  · intro p u f v h
    rw [getField_merge, h]
    rfl
  · intro p u f h
    rw [getField_merge, h]
    rfl
  · intro u hid
    have h1 : mergeAndFinish [u] [] = [u] := by
      unfold mergeAndFinish
      simp [emptyAutoLiq_id, jsTruthyNum_none, hid, mergeAutoLiq_empty_perm]
    simp [getAutoLiqSettings, swallowUnauthorized, h1]
  · intro p hid
    have h1 : mergeAndFinish [] [p] = [p] := by
      unfold mergeAndFinish
      simp [emptyAutoLiq_id, jsTruthyNum_none, hid, mergeAutoLiq_empty_user]
    simp [getAutoLiqSettings, swallowUnauthorized, h1]
  · intro p u hu hp
    simp [getAutoLiqSettings, swallowUnauthorized, mergeAndFinish, hu, hp]

theorem merge_owner_precedence_witness :
    getField (mergeAutoLiq { id := some 2, dailyLossAutoLiq := some 100 }
        { id := some 1, dailyLossAutoLiq := some 500 }) .dailyLossAutoLiq =
      some (.num 500) ∧
    getField (mergeAutoLiq { id := some 2, dailyProfitAutoLiq := some 1000 }
        { id := some 1 }) .dailyProfitAutoLiq =
      getField { id := some 2, dailyProfitAutoLiq := some 1000 } .dailyProfitAutoLiq ∧
    getAutoLiqSettings (.ok [{ id := some 1, dailyLossAutoLiq := some 500 }]) (.ok []) =
      .ok [{ id := some 1, dailyLossAutoLiq := some 500 }] ∧
    getAutoLiqSettings (.ok []) (.ok [{ id := some 2, dailyProfitAutoLiq := some 1000 }]) =
      .ok [{ id := some 2, dailyProfitAutoLiq := some 1000 }] ∧
    getAutoLiqSettings (.ok [{ id := some 1, dailyLossAutoLiq := some 500 }])
        (.ok [{ id := some 2, dailyProfitAutoLiq := some 1000 }]) =
      .ok [mergeAutoLiq { id := some 2, dailyProfitAutoLiq := some 1000 }
        { id := some 1, dailyLossAutoLiq := some 500 }] :=
  ⟨merge_owner_precedence.1 _ _ _ _ (by decide),
   merge_owner_precedence.2.1 _ _ _ (by decide),
   merge_owner_precedence.2.2.1 _ (by decide),
   merge_owner_precedence.2.2.2.1 _ (by decide),
   merge_owner_precedence.2.2.2.2 _ _ (by decide) (by decide)⟩

/-- C2: an Unauthorized-kind failure (message matching the 401 /
access-denied pattern) on one downstream lookup is swallowed and the read
succeeds with what the other lookup yielded (also when both fail that way),
while a failure of any other kind from either lookup propagates and fails
the whole read with that error. -/
theorem read_unauthorized_swallowed :
    (∀ (m : String) (l : List UserAccountAutoLiq), isUnauthorizedMsg m = true →
        getAutoLiqSettings (.error m) (.ok l) = .ok (mergeAndFinish [] l)) ∧
    (∀ (m : String) (l : List UserAccountAutoLiq), isUnauthorizedMsg m = true →
        getAutoLiqSettings (.ok l) (.error m) = .ok (mergeAndFinish l [])) ∧
    (∀ (m m2 : String), isUnauthorizedMsg m = true → isUnauthorizedMsg m2 = true →
        getAutoLiqSettings (.error m) (.error m2) = .ok []) ∧
    (∀ (m : String) (permRes : Except String (List UserAccountAutoLiq)),
        isUnauthorizedMsg m = false →
        getAutoLiqSettings (.error m) permRes = .error m) ∧
    (∀ (m : String) (l : List UserAccountAutoLiq), isUnauthorizedMsg m = false →
        getAutoLiqSettings (.ok l) (.error m) = .error m) ∧
    (∀ (m m2 : String), isUnauthorizedMsg m = true → isUnauthorizedMsg m2 = false →
        getAutoLiqSettings (.error m) (.error m2) = .error m2) := by
  refine ⟨?_, ?_, ?_, ?_, ?_, ?_⟩ <;>
    intros <;>
    simp_all [getAutoLiqSettings, swallowUnauthorized, mergeAndFinish, emptyAutoLiq,
      jsTruthyNum]

theorem read_unauthorized_swallowed_witness :
    getAutoLiqSettings (.error "401 Unauthorized")
        (.ok [{ id := some 2, dailyProfitAutoLiq := some 1000 }]) =
      .ok (mergeAndFinish [] [{ id := some 2, dailyProfitAutoLiq := some 1000 }]) ∧
    getAutoLiqSettings (.ok [{ id := some 1, dailyLossAutoLiq := some 500 }])
        (.error "Access is denied") =
      .ok (mergeAndFinish [{ id := some 1, dailyLossAutoLiq := some 500 }] []) ∧
    getAutoLiqSettings (.error "401 Unauthorized") (.error "Access is denied") = .ok [] ∧
    getAutoLiqSettings (.error "Rate limit exceeded") (.ok []) =
      .error "Rate limit exceeded" ∧
    getAutoLiqSettings (.ok [{ id := some 1 }]) (.error "Entity not found") =
      .error "Entity not found" ∧
    getAutoLiqSettings (.error "Access is denied") (.error "Entity not found") =
      .error "Entity not found" :=
  ⟨read_unauthorized_swallowed.1 _ _ (by decide),
   read_unauthorized_swallowed.2.1 _ _ (by decide),
   read_unauthorized_swallowed.2.2.1 _ _ (by decide) (by decide),
   read_unauthorized_swallowed.2.2.2.1 _ _ (by decide),
   read_unauthorized_swallowed.2.2.2.2.1 _ _ (by decide),
   read_unauthorized_swallowed.2.2.2.2.2 _ _ (by decide) (by decide)⟩

/-- C6: when neither downstream source yields an identifiable record (each
side either returns a list whose first record has no truthy `id` — in
particular an empty list — or fails with a swallowed Unauthorized-kind
error), the read succeeds with no settings: `getAutoLiqSettings` returns the
empty list, not an error, and the GET handler answers success with a `null`
`autoLiq` and `cached:false`. -/
theorem read_no_settings_not_error
    (ownerRes permRes : Except String (List UserAccountAutoLiq))
    (cache : Cache) (now : Nat) (accountId : Int)
    (hown : (∃ l, ownerRes = .ok l ∧ jsTruthyNum ((l.headD emptyAutoLiq).id) = false) ∨
            (∃ m, ownerRes = .error m ∧ isUnauthorizedMsg m = true))
    (hperm : (∃ l, permRes = .ok l ∧ jsTruthyNum ((l.headD emptyAutoLiq).id) = false) ∨
             (∃ m, permRes = .error m ∧ isUnauthorizedMsg m = true))
    (hmiss : getCachedRisk cache now accountId = none) :
    getAutoLiqSettings ownerRes permRes = .ok [] ∧
    getRiskHandler cache now accountId ownerRes permRes =
      (.ok none false, cache, true) := by
  obtain ⟨lo, ho, hto⟩ := swallow_no_id ownerRes hown
  obtain ⟨lp, hp, htp⟩ := swallow_no_id permRes hperm
  have hmerge : getAutoLiqSettings ownerRes permRes = .ok [] := by
    rw [getAutoLiqSettings, ho, hp]
    simp [mergeAndFinish_no_id lo lp hto htp]
  refine ⟨hmerge, ?_⟩
  simp [getRiskHandler, hmiss, hmerge]

theorem read_no_settings_not_error_witness :
    getAutoLiqSettings (.ok []) (.error "Access is denied") = .ok [] ∧
    getRiskHandler [] 0 7 (.ok []) (.error "Access is denied") =
      (.ok none false, [], true) :=
  read_no_settings_not_error (.ok []) (.error "Access is denied") [] 0 7
    (Or.inl ⟨[], rfl, rfl⟩) (Or.inr ⟨"Access is denied", rfl, by decide⟩) rfl

/-- C7: a GET for account 42 with no prior cache entry, where the owner
endpoint returns a record carrying `dailyLossAutoLiq = 500` and the
permissioned endpoint fails with a 401-kind error, answers success with
that record (hence `dailyLossAutoLiq = 500`) and `cached:false`. -/
theorem read_get42_owner_only (cache : Cache) (now : Nat)
    (u : UserAccountAutoLiq) (permMsg : String)
    (hmiss : getCachedRisk cache now 42 = none)
    (hid : jsTruthyNum u.id = true)
    (hdll : u.dailyLossAutoLiq = some 500)
    (hperm : isUnauthorizedMsg permMsg = true) :
    getRiskHandler cache now 42 (.ok [u]) (.error permMsg) =
      (.ok (some u) false, setCachedRisk cache now 42 u, true) ∧
    u.dailyLossAutoLiq = some 500 := by
  have h1 : mergeAndFinish [u] [] = [u] := by
    unfold mergeAndFinish
    simp [emptyAutoLiq_id, jsTruthyNum_none, hid, mergeAutoLiq_empty_perm]
  have h2 : getAutoLiqSettings (.ok [u]) (.error permMsg) = .ok [u] := by
    simp [getAutoLiqSettings, swallowUnauthorized, hperm, h1]
  refine ⟨?_, hdll⟩
  simp [getRiskHandler, hmiss, h2]

theorem read_get42_owner_only_witness :
    getRiskHandler [] 0 42
        (.ok [{ id := some 37857980, dailyLossAutoLiq := some 500 }])
        (.error "Tradovate API error: 401 Access is denied") =
      (.ok (some { id := some 37857980, dailyLossAutoLiq := some 500 }) false,
        setCachedRisk [] 0 42 { id := some 37857980, dailyLossAutoLiq := some 500 },
        true) ∧
    ({ id := some 37857980, dailyLossAutoLiq := some 500 } :
        UserAccountAutoLiq).dailyLossAutoLiq = some 500 :=
  read_get42_owner_only [] 0 { id := some 37857980, dailyLossAutoLiq := some 500 }
    "Tradovate API error: 401 Access is denied" rfl (by decide) (by decide) (by decide)

/-- C8: when the cache holds an unexpired entry for the account, the GET
handler returns that entry immediately with `cached:true`, leaves the cache
unchanged, and performs no downstream call — the response is the same
whatever the two downstream lookups would have returned. -/
theorem cache_hit_skips_downstream (cache : Cache) (now : Nat) (accountId : Int)
    (v : UserAccountAutoLiq) (h : getCachedRisk cache now accountId = some v)
    (ownerRes permRes : Except String (List UserAccountAutoLiq)) :
    getRiskHandler cache now accountId ownerRes permRes =
      (.ok (some v) true, cache, false) :=
  getRiskHandler_of_hit cache now accountId v h ownerRes permRes

theorem cache_hit_skips_downstream_witness :
    getRiskHandler [(riskKey 42, ⟨{ id := some 1, dailyLossAutoLiq := some 500 }, 3600⟩)]
        0 42 (.error "rate limited") (.ok []) =
      (.ok (some { id := some 1, dailyLossAutoLiq := some 500 }) true,
        [(riskKey 42, ⟨{ id := some 1, dailyLossAutoLiq := some 500 }, 3600⟩)], false) :=
  cache_hit_skips_downstream
    [(riskKey 42, ⟨{ id := some 1, dailyLossAutoLiq := some 500 }, 3600⟩)] 0 42
    { id := some 1, dailyLossAutoLiq := some 500 } (by decide)
    (.error "rate limited") (.ok [])

theorem lookupField_filterFieldsOver_not_mem (fields : List String)
    (payload : List (String × JsVal)) (f : String) (h : f ∉ fields) :
    lookupField (filterFieldsOver fields payload) f = none := by
  induction fields with
  | nil => rfl
  | cons a rest ih =>
    have hne : a ≠ f := fun e => h (e ▸ List.mem_cons_self a rest)
    have hnr : f ∉ rest := fun e => h (List.mem_cons_of_mem a e)
    unfold filterFieldsOver
    cases hl : lookupField payload a with
    | none => exact ih hnr
    | some v =>
      by_cases hv : v = JsVal.vnull
      · simp only [hv, if_pos rfl]
        exact ih hnr
      · simp only [if_neg hv, lookupField, hne, if_neg hne]
        exact ih hnr

theorem lookupField_filterFieldsOver_null (fields : List String)
    (payload : List (String × JsVal)) (f : String)
    (h : lookupField payload f = some JsVal.vnull) :
    lookupField (filterFieldsOver fields payload) f = none := by
  induction fields with
  | nil => rfl
  | cons a rest ih =>
    unfold filterFieldsOver
    cases hl : lookupField payload a with
    | none => exact ih
    | some v =>
      by_cases hv : v = JsVal.vnull
      · simp only [hv, if_pos rfl]
        exact ih
      · by_cases haf : a = f
        · subst haf
          rw [h] at hl
          injection hl with e
          exact absurd e.symm hv
        · simp only [if_neg hv, lookupField, if_neg haf]
          exact ih

theorem filterFieldsOver_eq_nil (fields : List String)
    (payload : List (String × JsVal))
    (h : ∀ f ∈ fields, lookupField payload f = none ∨
        lookupField payload f = some JsVal.vnull) :
    filterFieldsOver fields payload = [] := by
  induction fields with
  | nil => rfl
  | cons a rest ih =>
    have hrest := ih (fun f hf => h f (List.mem_cons_of_mem a hf))
    unfold filterFieldsOver
    rcases h a (List.mem_cons_self a rest) with ha | ha
    · rw [ha]
      exact hrest
    · rw [ha]
      simp only [if_pos rfl]
      exact hrest

theorem postRiskHandler_body (cache : Cache) (now : Nat) (accountId : Int)
    (payload : List (String × JsVal))
    (updateRes : Except String UpdateUserAutoLiqResponse)
    (body : Int × List (String × JsVal))
    (h : (postRiskHandler cache now accountId payload updateRes).2.2 = some body) :
    body = (accountId, filterRiskFields payload) := by
  simp only [postRiskHandler] at h
  split at h
  · simp at h
  · split at h
    · simp at h
      exact h.symm
    · split at h
      · simp at h
        exact h.symm
      · split at h
        · simp at h
          exact h.symm
        · split at h
          · simp at h
            exact h.symm
          · simp at h
            exact h.symm

/-- C4: the write handler forwards only allow-listed fields — a field
outside the fixed allow-list never appears in the filtered settings nor in
the body of the downstream update call — and when the filtered set is empty
the request is rejected with the 400 validation error and no downstream
call is made. -/
theorem write_field_allowlist :
    (∀ (payload : List (String × JsVal)) (f : String), f ∉ riskAllowedFields →
        lookupField (filterRiskFields payload) f = none) ∧
    (∀ (cache : Cache) (now : Nat) (accountId : Int)
        (payload : List (String × JsVal))
        (updateRes : Except String UpdateUserAutoLiqResponse) (f : String)
        (body : Int × List (String × JsVal)), f ∉ riskAllowedFields →
        (postRiskHandler cache now accountId payload updateRes).2.2 = some body →
        lookupField body.2 f = none) ∧
    (∀ (cache : Cache) (now : Nat) (accountId : Int)
        (payload : List (String × JsVal))
        (updateRes : Except String UpdateUserAutoLiqResponse),
        filterRiskFields payload = [] →
        postRiskHandler cache now accountId payload updateRes =
          (.err 400 noValidParamsMsg none, cache, none)) := by
  refine ⟨?_, ?_, ?_⟩
  · intro payload f hf
    exact lookupField_filterFieldsOver_not_mem _ _ _ hf
  · intro cache now accountId payload updateRes f body hf hbody
    rw [postRiskHandler_body cache now accountId payload updateRes body hbody]
    exact lookupField_filterFieldsOver_not_mem _ _ _ hf
  · intro cache now accountId payload updateRes hempty
    simp [postRiskHandler, hempty]

theorem write_field_allowlist_witness :
    lookupField (filterRiskFields
        [("connectionRef", .vstr "TS-1"), ("dailyLossAutoLiq", .vnum 500)])
      "connectionRef" = none ∧
    lookupField ((42, [("dailyLossAutoLiq", JsVal.vnum 500)]) :
        Int × List (String × JsVal)).2 "connectionRef" = none ∧
    postRiskHandler [] 0 42 [("connectionRef", .vstr "TS-1")] (.ok {}) =
      (.err 400 noValidParamsMsg none, [], none) :=
  ⟨write_field_allowlist.1 _ "connectionRef" (by decide),
   write_field_allowlist.2.1 [] 0 42
     [("connectionRef", .vstr "TS-1"), ("dailyLossAutoLiq", .vnum 500)]
     (.ok { userAccountAutoLiq := some { id := some 1 } }) "connectionRef"
     (42, [("dailyLossAutoLiq", JsVal.vnum 500)]) (by decide) (by decide),
   write_field_allowlist.2.2 [] 0 42 [("connectionRef", .vstr "TS-1")] (.ok {})
     (by decide)⟩

/-- C10 (implicit): the `!= null` filter keeps an allow-listed field only
when its value is neither `null` nor absent, so a field explicitly set to
`null` is treated as absent — it never reaches the filtered settings or the
downstream update body — and a payload whose allow-listed fields are all
`null` (or absent) is rejected with the empty-set validation error. -/
theorem null_fields_treated_absent :
    (∀ (payload : List (String × JsVal)) (f : String),
        lookupField payload f = some JsVal.vnull →
        lookupField (filterRiskFields payload) f = none) ∧
    (∀ (cache : Cache) (now : Nat) (accountId : Int)
        (payload : List (String × JsVal))
        (updateRes : Except String UpdateUserAutoLiqResponse) (f : String)
        (body : Int × List (String × JsVal)),
        lookupField payload f = some JsVal.vnull →
        (postRiskHandler cache now accountId payload updateRes).2.2 = some body →
        lookupField body.2 f = none) ∧
    (∀ (cache : Cache) (now : Nat) (accountId : Int)
        (payload : List (String × JsVal))
        (updateRes : Except String UpdateUserAutoLiqResponse),
        (∀ f ∈ riskAllowedFields, lookupField payload f = none ∨
            lookupField payload f = some JsVal.vnull) →
        postRiskHandler cache now accountId payload updateRes =
          (.err 400 noValidParamsMsg none, cache, none)) := by
  refine ⟨?_, ?_, ?_⟩
  · intro payload f hf
    exact lookupField_filterFieldsOver_null _ _ _ hf
  · intro cache now accountId payload updateRes f body hf hbody
    rw [postRiskHandler_body cache now accountId payload updateRes body hbody]
    exact lookupField_filterFieldsOver_null _ _ _ hf
  · intro cache now accountId payload updateRes hall
    simp [postRiskHandler, filterRiskFields, filterFieldsOver_eq_nil _ _ hall]

theorem null_fields_treated_absent_witness :
    lookupField (filterRiskFields
        [("dailyLossAutoLiq", JsVal.vnull), ("dailyProfitAutoLiq", .vnum 1000)])
      "dailyLossAutoLiq" = none ∧
    lookupField ((42, [("dailyProfitAutoLiq", JsVal.vnum 1000)]) :
        Int × List (String × JsVal)).2 "dailyLossAutoLiq" = none ∧
    postRiskHandler [] 0 42
        [("connectionRef", .vstr "TS-1"), ("dailyLossAutoLiq", JsVal.vnull)]
        (.ok {}) = (.err 400 noValidParamsMsg none, [], none) :=
  ⟨null_fields_treated_absent.1 _ "dailyLossAutoLiq" (by decide),
   null_fields_treated_absent.2.1 [] 0 42
     [("dailyLossAutoLiq", JsVal.vnull), ("dailyProfitAutoLiq", .vnum 1000)]
     (.ok { userAccountAutoLiq := some { id := some 1 } }) "dailyLossAutoLiq"
     (42, [("dailyProfitAutoLiq", JsVal.vnum 1000)]) (by decide) (by decide),
   null_fields_treated_absent.2.2 [] 0 42
     [("connectionRef", .vstr "TS-1"), ("dailyLossAutoLiq", JsVal.vnull)]
     (.ok {}) (by decide)⟩

/-- C3: a successful write installs the freshly written record over any
stale cache entry for the account (delete then set), so the POST response
carries the written record and a read for the same account immediately
afterwards is answered from the cache with exactly that record — never the
pre-write cached value — tagged `cached:true` and without a downstream
call. -/
theorem write_refreshes_cache (cache : Cache) (now : Nat) (accountId : Int)
    (payload : List (String × JsVal))
    (updateRes : Except String UpdateUserAutoLiqResponse)
    (r : UserAccountAutoLiq)
    (hfields : filterRiskFields payload ≠ [])
    (hset : setAutoLiqSettings accountId updateRes = .ok r) :
    postRiskHandler cache now accountId payload updateRes =
      (.ok r, setCachedRisk (invalidateCachedRisk cache accountId) now accountId r,
        some (accountId, filterRiskFields payload)) ∧
    getCachedRisk (setCachedRisk (invalidateCachedRisk cache accountId) now accountId r)
        now accountId = some r ∧
    (∀ ownerRes permRes,
        getRiskHandler
            (setCachedRisk (invalidateCachedRisk cache accountId) now accountId r)
            now accountId ownerRes permRes =
          (.ok (some r) true,
            setCachedRisk (invalidateCachedRisk cache accountId) now accountId r,
            false)) := by
  have h0 : ¬((filterRiskFields payload).length = 0) := by
    simpa [List.length_eq_zero] using hfields
  have hget := getCachedRisk_setCachedRisk (invalidateCachedRisk cache accountId)
    now accountId r
  refine ⟨?_, hget, fun oR pR => getRiskHandler_of_hit _ now accountId r hget oR pR⟩
  simp [postRiskHandler, h0, hset]

/-- Concrete records for the write-then-read witness: the pre-write cached
value and the freshly written record. -/
def staleRec : UserAccountAutoLiq :=
  { id := some 42, dailyLossAutoLiq := some 100 }

def writtenRec : UserAccountAutoLiq :=
  { id := some 42, dailyLossAutoLiq := some 500, dailyProfitAutoLiq := some 1000 }

def staleCache : Cache :=
  [(riskKey 42, ⟨staleRec, 3600⟩)]

def writeOkRes : Except String UpdateUserAutoLiqResponse :=
  .ok { userAccountAutoLiq := some writtenRec }

theorem write_refreshes_cache_witness :
    postRiskHandler staleCache 0 42
        [("dailyLossAutoLiq", .vnum 500), ("dailyProfitAutoLiq", .vnum 1000)]
        writeOkRes =
      (.ok writtenRec,
        setCachedRisk (invalidateCachedRisk staleCache 42) 0 42 writtenRec,
        some (42, [("dailyLossAutoLiq", JsVal.vnum 500),
                   ("dailyProfitAutoLiq", JsVal.vnum 1000)])) ∧
    getCachedRisk (setCachedRisk (invalidateCachedRisk staleCache 42) 0 42 writtenRec)
      0 42 = some writtenRec ∧
    (∀ ownerRes permRes,
        getRiskHandler (setCachedRisk (invalidateCachedRisk staleCache 42) 0 42 writtenRec)
          0 42 ownerRes permRes =
          (.ok (some writtenRec) true,
            setCachedRisk (invalidateCachedRisk staleCache 42) 0 42 writtenRec,
            false)) :=
  write_refreshes_cache staleCache 0 42
    [("dailyLossAutoLiq", .vnum 500), ("dailyProfitAutoLiq", .vnum 1000)]
    writeOkRes writtenRec (by decide) (by decide)

/-- C5: the downstream update response is interpreted as follows — a
non-empty `errorText` fails the write with an upstream error message that
contains that text; otherwise the settings record is extracted from the
owner-entity shape (`userAccountAutoLiq`) or, failing that, the
permissioned-entity shape (`permissionedAccountAutoLiq`) and returned; and
when neither shape is present the write fails with the no-entity-returned
error. -/
theorem set_response_interpretation :
    (∀ (accountId : Int) (r : UpdateUserAutoLiqResponse) (t : String),
        r.errorText = some t → t ≠ "" →
        setAutoLiqSettings accountId (.ok r) =
          .error (setAutoLiqFailMsg accountId t) ∧
        strContains (setAutoLiqFailMsg accountId t) t = true) ∧
    (∀ (accountId : Int) (r : UpdateUserAutoLiqResponse) (a : UserAccountAutoLiq),
        jsTruthyStr r.errorText = false → r.userAccountAutoLiq = some a →
        setAutoLiqSettings accountId (.ok r) = .ok a) ∧
    (∀ (accountId : Int) (r : UpdateUserAutoLiqResponse) (a : UserAccountAutoLiq),
        jsTruthyStr r.errorText = false → r.userAccountAutoLiq = none →
        r.permissionedAccountAutoLiq = some a →
        setAutoLiqSettings accountId (.ok r) = .ok a) ∧
    (∀ (accountId : Int) (r : UpdateUserAutoLiqResponse),
        jsTruthyStr r.errorText = false → r.userAccountAutoLiq = none →
        r.permissionedAccountAutoLiq = none →
        setAutoLiqSettings accountId (.ok r) = .error (noEntityMsg accountId)) := by
  refine ⟨?_, ?_, ?_, ?_⟩
  · intro accountId r t ht hne
    have htruthy : jsTruthyStr (some t) = true := by
      simpa [jsTruthyStr] using hne
    constructor
    · simp [setAutoLiqSettings, ht, htruthy]
    · exact strContains_append_self _ t
  · intro accountId r a he hu
    simp [setAutoLiqSettings, he, hu]
  · intro accountId r a he hu hp
    simp [setAutoLiqSettings, he, hu, hp]
  · intro accountId r he hu hp
    simp [setAutoLiqSettings, he, hu, hp]

theorem set_response_interpretation_witness :
    (setAutoLiqSettings 42 (.ok { errorText := some "Unsupported parameters" }) =
        .error (setAutoLiqFailMsg 42 "Unsupported parameters") ∧
      strContains (setAutoLiqFailMsg 42 "Unsupported parameters")
        "Unsupported parameters" = true) ∧
    setAutoLiqSettings 42 (.ok { userAccountAutoLiq := some writtenRec }) =
      .ok writtenRec ∧
    setAutoLiqSettings 42 (.ok { permissionedAccountAutoLiq := some writtenRec }) =
      .ok writtenRec ∧
    setAutoLiqSettings 42 (.ok {}) = .error (noEntityMsg 42) :=
  ⟨set_response_interpretation.1 42 { errorText := some "Unsupported parameters" }
     "Unsupported parameters" (by decide) (by decide),
   set_response_interpretation.2.1 42 { userAccountAutoLiq := some writtenRec }
     writtenRec (by decide) (by decide),
   set_response_interpretation.2.2.1 42 { permissionedAccountAutoLiq := some writtenRec }
     writtenRec (by decide) (by decide) (by decide),
   set_response_interpretation.2.2.2 42 {} (by decide) (by decide) (by decide)⟩

/-- Status of a rejected authentication outcome, `none` when a client was
constructed. -/
def rejectionStatus : AuthOutcome → Option Nat
  | .rejected s _ => some s
  | .authenticated _ _ => none

/-- C9 is false as stated for the Supabase resolver variant: a retrieved
record whose token is the empty string fails resolution with the
token-empty message, which the auth error mapping surfaces as a 401, not
as the claimed 404. -/
theorem connection_not_found_counterexample :
    resolveConnSupabase "u1" "TS-1"
        (.ok { token := some "", url := some "https://demo.tradovateapi.com" }) =
      .rejected 401 "Token is empty for user u1, connection TS-1" ∧
    rejectionStatus (resolveConnSupabase "u1" "TS-1"
        (.ok { token := some "", url := some "https://demo.tradovateapi.com" })) ≠
      some 404 :=
  ⟨by decide, by decide⟩

/-- C9 (amended): a connection-resolution lookup miss always fails with the
not-found error surfaced as 404, and so does a malformed record (missing or
empty token) in the Firebase-RTDB resolver; in the Supabase resolver a
malformed record instead fails with the token-empty error surfaced as 401.
In every such case the resolution fails and no authorized client is
constructed. (The substring hypotheses rule out identifiers that smuggle
one of the error-mapping patterns into the message.) -/
theorem connection_not_found_amended :
    (∀ (uid ref : String),
        getConnectionTokenFirebase uid ref none = .error (connMissMsg uid ref)) ∧
    (∀ (uid ref : String) (d : ConnData), jsTruthyStr d.token = false →
        getConnectionTokenFirebase uid ref (some d) = .error (connMissMsg uid ref)) ∧
    (∀ (uid ref : String) (data : Option ConnData),
        strContains (connMissMsg uid ref) "Firebase ID token has expired" = false →
        strContains (connMissMsg uid ref) "Decoding Firebase" = false →
        (data = none ∨ ∃ d, data = some d ∧ jsTruthyStr d.token = false) →
        resolveConnFirebase uid ref data = .rejected 404 (connMissMsg uid ref)) ∧
    (∀ (uid ref e : String),
        strContains (connMissMsg uid ref ++ ": " ++ e)
          "Firebase ID token has expired" = false →
        strContains (connMissMsg uid ref ++ ": " ++ e) "Decoding Firebase" = false →
        resolveConnSupabase uid ref (.error e) =
          .rejected 404 (connMissMsg uid ref ++ ": " ++ e)) ∧
    (∀ (uid ref : String) (d : ConnData), jsTruthyStr d.token = false →
        strContains (tokenEmptyMsg uid ref) "Firebase ID token has expired" = false →
        strContains (tokenEmptyMsg uid ref) "Decoding Firebase" = false →
        strContains (tokenEmptyMsg uid ref) "No Tradovate token found" = false →
        resolveConnSupabase uid ref (.ok d) =
          .rejected 401 (tokenEmptyMsg uid ref)) := by
  refine ⟨?_, ?_, ?_, ?_, ?_⟩
  · intro uid ref
    rfl
  · intro uid ref d hd
    simp [getConnectionTokenFirebase, hd]
  · intro uid ref data h1 h2 hdata
    have hmap : mapAuthError (connMissMsg uid ref) = (404, connMissMsg uid ref) :=
      mapAuthError_notFound _ h1 h2 (connMissMsg_contains uid ref)
    have herr : getConnectionTokenFirebase uid ref data = .error (connMissMsg uid ref) := by
      rcases hdata with rfl | ⟨d, rfl, hd⟩
      · rfl
      · simp [getConnectionTokenFirebase, hd]
    simp [resolveConnFirebase, authOutcomeOfLookup, Except.map, herr, hmap]
  · intro uid ref e h1 h2
    have hc : strContains (connMissMsg uid ref ++ ": " ++ e)
        "No Tradovate token found" = true :=
      strContains_append_left _ e _
        (strContains_append_left _ ": " _ (connMissMsg_contains uid ref))
    have hmap := mapAuthError_notFound _ h1 h2 hc
    simp [resolveConnSupabase, getConnectionTokenSupabase, authOutcomeOfLookup, hmap]
  · intro uid ref d hd h1 h2 h3
    have hmap : mapAuthError (tokenEmptyMsg uid ref) = (401, tokenEmptyMsg uid ref) := by
      simp [mapAuthError, h1, h2, h3]
    simp [resolveConnSupabase, getConnectionTokenSupabase, hd,
      authOutcomeOfLookup, hmap]

theorem connection_not_found_amended_witness :
    getConnectionTokenFirebase "u1" "TS-1" none = .error (connMissMsg "u1" "TS-1") ∧
    getConnectionTokenFirebase "u1" "TS-1" (some { token := some "" }) =
      .error (connMissMsg "u1" "TS-1") ∧
    resolveConnFirebase "u1" "TS-1" none = .rejected 404 (connMissMsg "u1" "TS-1") ∧
    resolveConnSupabase "u1" "TS-1" (.error "0 rows") =
      .rejected 404 (connMissMsg "u1" "TS-1" ++ ": " ++ "0 rows") ∧
    resolveConnSupabase "u1" "TS-1" (.ok { token := none }) =
      .rejected 401 (tokenEmptyMsg "u1" "TS-1") :=
  ⟨connection_not_found_amended.1 "u1" "TS-1",
   connection_not_found_amended.2.1 "u1" "TS-1" { token := some "" } (by decide),
   connection_not_found_amended.2.2.1 "u1" "TS-1" none (by decide) (by decide)
     (Or.inl rfl),
   connection_not_found_amended.2.2.2.1 "u1" "TS-1" "0 rows" (by decide) (by decide),
   connection_not_found_amended.2.2.2.2 "u1" "TS-1" { token := none } (by decide)
     (by decide) (by decide) (by decide)⟩
